import Mathlib

/-!
Verification of the EnviroPlus environmental monitor
(`src/EnviroPlus/main.py`, `src/emi_test.py`).

This file gives a shallow embedding of the sampling / compensation /
dispatch pipeline of the monitor.  Wall-clock times and sensor values are
modelled as exact rationals, Python's `round` builtin as round-half-even
on rationals, raised exceptions as `Except.error`, and the HTTP
collaborators as explicit outcome parameters.  Module-level configuration
globals become either top-level constants or an explicit `Config` record
carrying the same fields.
-/

namespace EnviroPlus

/-! ## Configuration globals of `src/EnviroPlus/main.py` (settings block) -/

/-- Source global `ROUND_DATA_TO_DP = 2`: decimal precision of all stored data. -/
def ROUND_DATA_TO_DP : ℕ := 2

/-- Source global `TEMP_COMPENSATION_FACTOR = 2.25`. -/
def TEMP_COMPENSATION_FACTOR : ℚ := 9 / 4

/-- Source global `MEASUREMENT_FREQUENCY = 2` (measurements per minute). -/
def MEASUREMENT_FREQUENCY : ℚ := 2

/-- Source global `VERBOSE = True`. -/
def VERBOSE : Bool := true

/-- Source global `SAVE_DATA_LOCALLY = True`. -/
def SAVE_DATA_LOCALLY : Bool := true

/-- The measurement-selection globals of the settings block, lifted into a
record so that functions reading them can be stated for every configuration.
Fields, in source order: `MEASURE_PM25`, `MEASURE_PM10`,
`MEASURE_TEMPERATURE`, `MEASURE_PRESSURE`, `MEASURE_HUMIDITY`,
`MEASURE_GASES`, `MEASURE_CPU_TEMPERATURE`, `COMPENSATE_TEMPERATURE`,
`TEMP_COMPENSATION_FACTOR`. -/
structure Config where
  (MEASURE_PM25 : Bool)
  (MEASURE_PM10 : Bool)
  (MEASURE_TEMPERATURE : Bool)
  (MEASURE_PRESSURE : Bool)
  (MEASURE_HUMIDITY : Bool)
  (MEASURE_GASES : Bool)
  (MEASURE_CPU_TEMPERATURE : Bool)
  (COMPENSATE_TEMPERATURE : Bool)
  (tempCompensationFactor : ℚ)
deriving DecidableEq

/-- The configuration values literally assigned in the settings block of
`src/EnviroPlus/main.py`: every measurement enabled except the CPU
temperature, compensation on, factor 2.25. -/
def sourceConfig : Config :=
  ⟨true, true, true, true, true, true, false, true, 9 / 4⟩

/-! ## Python `round` on exact rationals -/

/-- The integer that Python's `round(q * 10^n)` would produce: the nearest
integer to `q * 10^n`, ties going to the even integer (banker's rounding). -/
def pyRoundInt (q : ℚ) (n : ℕ) : ℤ :=
  let x : ℚ := q * (10 : ℚ) ^ n
  let f : ℤ := Int.floor x
  let r : ℚ := x - (f : ℚ)
  if r < 1 / 2 then f
  else if 1 / 2 < r then f + 1
  else if f % 2 = 0 then f else f + 1

/-- Python's builtin `round(q, n)` on exact rationals: round `q` to `n`
decimal places, ties to even. -/
def pyRound (q : ℚ) (n : ℕ) : ℚ :=
  (pyRoundInt q n : ℚ) / (10 : ℚ) ^ n

/-- Rounding an integer number of `10^-n` units is the identity. -/
theorem pyRoundInt_intCast_div (k : ℤ) (n : ℕ) :
    pyRoundInt ((k : ℚ) / (10 : ℚ) ^ n) n = k := by
  have hm : ((10 : ℚ) ^ n) ≠ 0 := by positivity
  unfold pyRoundInt
  simp only [div_mul_cancel₀ _ hm, Int.floor_intCast, sub_self]
  norm_num

/-- Re-rounding at the same precision is a no-op: `pyRound` is idempotent. -/
theorem pyRound_idem (q : ℚ) (n : ℕ) :
    pyRound (pyRound q n) n = pyRound q n := by
  unfold pyRound
  rw [pyRoundInt_intCast_div]

/-! ## CompensationEngine: `compensate_temperature` and the calibrations
(`src/EnviroPlus/main.py` lines 129-171 and 228-237) -/

/-- `compensate_temperature(raw_temp, cpu_temp, comp_factor)`:
`comp_temp = raw_temp - ((cpu_temp - raw_temp) / comp_factor)` followed by
`round(comp_temp, ROUND_DATA_TO_DP)`. -/
def compensate_temperature (raw_temp cpu_temp comp_factor : ℚ) : ℚ :=
  pyRound (raw_temp - (cpu_temp - raw_temp) / comp_factor) ROUND_DATA_TO_DP

/-- `calibrate_temperature`: `round(temperature, ROUND_DATA_TO_DP)`. -/
def calibrate_temperature (temperature : ℚ) : ℚ :=
  pyRound temperature ROUND_DATA_TO_DP

/-- `calibrate_pressure`: `round(pressure, ROUND_DATA_TO_DP)`. -/
def calibrate_pressure (pressure : ℚ) : ℚ :=
  pyRound pressure ROUND_DATA_TO_DP

/-- `calibrate_humidity`: `round(humidity, ROUND_DATA_TO_DP)`. -/
def calibrate_humidity (humidity : ℚ) : ℚ :=
  pyRound humidity ROUND_DATA_TO_DP

/-- `calibrate_pm25`: `round(pm25, ROUND_DATA_TO_DP)`. -/
def calibrate_pm25 (pm25 : ℚ) : ℚ :=
  pyRound pm25 ROUND_DATA_TO_DP

/-- `calibrate_pm10`: `round(pm10, ROUND_DATA_TO_DP)`. -/
def calibrate_pm10 (pm10 : ℚ) : ℚ :=
  pyRound pm10 ROUND_DATA_TO_DP

end EnviroPlus

namespace EnviroPlus

/-- C3 counterexample: at the claim's literal inputs T_raw = 22.0,
T_cpu = 45.0, F = 2.25, the compensation returns 11.78, not the claimed
12.78. -/
theorem C3_counterexample :
    compensate_temperature 22 45 (9 / 4) = 1178 / 100 ∧
      compensate_temperature 22 45 (9 / 4) ≠ 1278 / 100 := by
  unfold compensate_temperature pyRound pyRoundInt ROUND_DATA_TO_DP
  norm_num

/-- C3 (amended): for all raw temperature, CPU temperature and factor, the
compensation operation returns `round(T_raw - (T_cpu - T_raw)/F, 2)` with
the default precision `ROUND_DATA_TO_DP = 2` and default factor
`TEMP_COMPENSATION_FACTOR = 2.25`; at T_raw = 22.0, T_cpu = 45.0, F = 2.25
the result is 11.78 (the claim's literal value 12.78 is off by one degree). -/
theorem C3_compensation :
    (∀ raw_temp cpu_temp comp_factor : ℚ,
        compensate_temperature raw_temp cpu_temp comp_factor =
          pyRound (raw_temp - (cpu_temp - raw_temp) / comp_factor) 2) ∧
      ROUND_DATA_TO_DP = 2 ∧
      TEMP_COMPENSATION_FACTOR = 9 / 4 ∧
      compensate_temperature 22 45 TEMP_COMPENSATION_FACTOR = 1178 / 100 := by
  refine ⟨fun raw_temp cpu_temp comp_factor => rfl, rfl, rfl, ?_⟩
  unfold compensate_temperature pyRound pyRoundInt ROUND_DATA_TO_DP TEMP_COMPENSATION_FACTOR
  norm_num

/-! ## Cadence Controller (`mainloop`, `src/EnviroPlus/main.py` lines 614-637, 662)

The loop keeps `previous_time`, computes
`time_difference = current_time - previous_time`, and fires a sample when
`time_difference >= update_delay`, setting `previous_time = current_time`
(not `previous_time + update_delay`).  The progress bar is driven by
`percent = time_difference / update_delay` with no clamping. -/

/-- `update_delay = 60.0 / MEASUREMENT_FREQUENCY` (line 616). -/
def update_delay (measurement_frequency : ℚ) : ℚ :=
  60 / measurement_frequency

/-- One cadence check of the mainloop: fire exactly when
`now - previous_time >= delay`; on firing the reference becomes `now`. -/
def shouldSample (now previous_time delay : ℚ) : Bool × ℚ :=
  if delay ≤ now - previous_time then (true, now) else (false, previous_time)

/-- Running the cadence check over a list of tick times, returning the tick
times at which a sample fired (the loop skeleton of lines 630-637). -/
def runCadence (delay : ℚ) : ℚ → List ℚ → List ℚ
  | _, [] => []
  | ref, t :: ts =>
    if delay ≤ t - ref then t :: runCadence delay t ts
    else runCadence delay ref ts

/-- The first fire after reference time `ref` is at least `delay` later. -/
theorem runCadence_head_gap (delay : ℚ) :
    ∀ (ref : ℚ) (ts : List ℚ) (t : ℚ),
      (runCadence delay ref ts).head? = some t → delay ≤ t - ref := by
  intro ref ts
  induction ts generalizing ref with
  | nil => intro t h; simp [runCadence] at h
  | cons x xs ih =>
    intro t h
    by_cases hx : delay ≤ x - ref
    · simp [runCadence, hx] at h
      simpa [h] using hx
    · simp [runCadence, hx] at h
      exact ih ref t h

/-- Consecutive fire times are always at least one interval apart. -/
theorem runCadence_chain (delay : ℚ) :
    ∀ (ref : ℚ) (ts : List ℚ),
      List.Chain' (fun a b => delay ≤ b - a) (runCadence delay ref ts) := by
  intro ref ts
  induction ts generalizing ref with
  | nil => simp [runCadence]
  | cons x xs ih =>
    by_cases hx : delay ≤ x - ref
    · simp only [runCadence, hx, if_pos]
      rw [List.chain'_cons']
      exact ⟨fun y hy => runCadence_head_gap delay x xs y hy, ih x⟩
    · simpa [runCadence, hx] using ih ref

/-- C2: the cadence check fires exactly when `now - previous_time ≥ delay`;
on firing it resets the reference to `now` (otherwise it keeps the old
reference); consecutive fire times over any tick sequence are at least one
interval apart (never more than once per elapsed interval); and after a
stall of 10 intervals a single check fires exactly once, with a following
tick inside the next interval not firing (no catch-up burst). -/
theorem C2_cadence :
    (∀ now previous_time delay : ℚ,
        (shouldSample now previous_time delay).1 = true ↔
          delay ≤ now - previous_time) ∧
      (∀ now previous_time delay : ℚ, delay ≤ now - previous_time →
        (shouldSample now previous_time delay).2 = now) ∧
      (∀ now previous_time delay : ℚ, ¬ delay ≤ now - previous_time →
        (shouldSample now previous_time delay).2 = previous_time) ∧
      (∀ (delay ref : ℚ) (ts : List ℚ),
        List.Chain' (fun a b => delay ≤ b - a) (runCadence delay ref ts)) ∧
      (∀ ref delay t : ℚ, 0 < delay →
        0 ≤ t - (ref + 10 * delay) → t - (ref + 10 * delay) < delay →
        runCadence delay ref [ref + 10 * delay, t] = [ref + 10 * delay]) := by
  refine ⟨?_, ?_, ?_, ?_, ?_⟩
  · intro now previous_time delay
    constructor
    · intro h
      by_contra hc
      simp [shouldSample, hc] at h
    · intro h
      simp [shouldSample, h]
  · intro now previous_time delay h
    simp [shouldSample, h]
  · intro now previous_time delay h
    simp [shouldSample, h]
  · exact fun delay ref ts => runCadence_chain delay ref ts
  · intro ref delay t hd h0 h1
    have hfire : delay ≤ ref + 10 * delay - ref := by linarith
    have hnofire : ¬ delay ≤ t - (ref + 10 * delay) := by linarith
    simp only [runCadence]
    rw [if_pos hfire, if_neg hnofire]

/-- C2 witness: with the source interval 30 s (2 measurements per minute),
reference 0 and ticks at 300 s (a 10-interval stall) and 310 s, exactly one
sample fires, at 300 s; and a check at 40 s with reference 0 fires. -/
theorem C2_cadence_witness :
    runCadence 30 0 [300, 310] = [300] ∧ (shouldSample 40 0 30).1 = true := by
  constructor
  · have h := C2_cadence.2.2.2.2 0 30 310 (by norm_num) (by norm_num) (by norm_num)
    norm_num at h
    exact h
  · exact (C2_cadence.1 40 0 30).2 (by norm_num)

/-- The value driving the progress bar: `percent = time_difference /
update_delay` (line 662); there is no clamping in the source. -/
def progressPercent (time_difference delay : ℚ) : ℚ :=
  time_difference / delay

/-- C6 counterexample: with the source interval 30 s and an elapsed time of
60 s (overdue tick), the value driving the progress bar is 2, not
`min 1 (60 / 30) = 1`: the source never applies `min(1, ...)`. -/
theorem C6_counterexample :
    progressPercent 60 30 = 2 ∧ min (1 : ℚ) (60 / 30) = 1 ∧
      progressPercent 60 30 ≠ min (1 : ℚ) (60 / 30) := by
  norm_num [progressPercent]

/-- C6 (amended): the progress value is `elapsed / interval` with no
saturation: it is never negative (for a non-negative elapsed time and
positive interval), equals the claimed `min(1, elapsed/interval)` only
while the sample is not overdue, and strictly exceeds 1 whenever the
elapsed time exceeds the interval. -/
theorem C6_progress :
    ∀ elapsed delay : ℚ, 0 ≤ elapsed → 0 < delay →
      0 ≤ progressPercent elapsed delay ∧
        (elapsed ≤ delay → progressPercent elapsed delay = min 1 (elapsed / delay)) ∧
        (delay < elapsed → 1 < progressPercent elapsed delay) := by
  intro elapsed delay he hd
  refine ⟨div_nonneg he hd.le, ?_, ?_⟩
  · intro h
    have : elapsed / delay ≤ 1 := (div_le_one hd).mpr h
    simp [progressPercent, min_eq_right this]
  · intro h
    exact (one_lt_div hd).mpr h

/-- C6 witness: instantiating the amended progress property at elapsed 15 s
and the source interval 30 s. -/
theorem C6_progress_witness :
    0 ≤ progressPercent 15 30 ∧
      (15 ≤ (30 : ℚ) → progressPercent 15 30 = min 1 (15 / 30)) ∧
      ((30 : ℚ) < 15 → 1 < progressPercent 15 30) :=
  C6_progress 15 30 (by norm_num) (by norm_num)

/-! ## DisplayStateMachine (`src/EnviroPlus/main.py` lines 518-519, 650-657)

`current_scene_id` starts at 0; each tick reads the proximity value and, if
`proximity > 1_500`, increments `current_scene_id`, wrapping to 0 when it
exceeds 2. -/

/-- Initial value of the module global `current_scene_id` (line 519). -/
def current_scene_id_init : ℕ := 0

/-- One proximity-driven scene transition (lines 653-657). -/
def nextScene (scene : ℕ) (proximity : ℚ) : ℕ :=
  if 1500 < proximity then
    if 2 < scene + 1 then 0 else scene + 1
  else scene

/-- The scene index reached from startup after a list of proximity
readings, one per tick. -/
def runScenes (proximities : List ℚ) : ℕ :=
  proximities.foldl nextScene current_scene_id_init

/-- A scene transition preserves the range [0, 3). -/
theorem nextScene_lt (scene : ℕ) (proximity : ℚ) (h : scene < 3) :
    nextScene scene proximity < 3 := by
  unfold nextScene
  split
  · split
    · norm_num
    · omega
  · exact h

/-- C7: the scene index starts at 0; a proximity reading at or below the
1500 threshold leaves the index unchanged; a reading above the threshold
advances it by exactly one modulo 3 (wrapping from scene 2 back to 0); a
transition preserves the range [0, 3); and from startup the index stays in
[0, 3) over every tick sequence. -/
theorem C7_scene_machine :
    current_scene_id_init = 0 ∧
      (∀ (scene : ℕ) (proximity : ℚ), proximity ≤ 1500 →
        nextScene scene proximity = scene) ∧
      (∀ (scene : ℕ) (proximity : ℚ), scene < 3 → 1500 < proximity →
        nextScene scene proximity = (scene + 1) % 3) ∧
      (∀ (scene : ℕ) (proximity : ℚ), scene < 3 →
        nextScene scene proximity < 3) ∧
      (∀ proximities : List ℚ, runScenes proximities < 3) := by
  refine ⟨rfl, ?_, ?_, fun s p h => nextScene_lt s p h, ?_⟩
  · intro scene proximity h
    have : ¬ 1500 < proximity := not_lt.mpr h
    simp [nextScene, this]
  · intro scene proximity hs hp
    unfold nextScene
    rw [if_pos hp]
    interval_cases scene <;> norm_num
  · intro proximities
    have key : ∀ (ps : List ℚ) (s : ℕ), s < 3 → ps.foldl nextScene s < 3 := by
      intro ps
      induction ps with
      | nil => intro s h; simpa using h
      | cons x xs ih =>
        intro s h
        exact ih (nextScene s x) (nextScene_lt s x h)
    exact key proximities current_scene_id_init (by decide)

/-- C7 witness: a concrete instantiation — at scene 2 a proximity of 2000
wraps to scene 0, and a proximity of 100 leaves scene 1 unchanged. -/
theorem C7_scene_machine_witness :
    nextScene 2 2000 = (2 + 1) % 3 ∧ nextScene 1 100 = 1 :=
  ⟨C7_scene_machine.2.2.1 2 2000 (by norm_num) (by norm_num),
   C7_scene_machine.2.1 1 100 (by norm_num)⟩

/-! ## SinkDispatcher: one mainloop dispatch section
(`src/EnviroPlus/main.py` lines 630-672)

On a firing tick the loop runs, in order and inside a single `try`:
`verbose(...)` when `VERBOSE`, then `send_to_local_db(...)` when
`SAVE_DATA_LOCALLY`.  An exception raised by any statement jumps to the
`except` handler at the tick boundary, which sets `mainloop_errors` and
continues; the statements after the raising one are not executed in that
cycle. -/

/-- Observable effects of the storage/transfer section of one firing tick:
whether the console sink completed, whether the local-database row was
written, and whether the tick-boundary handler recorded an error. -/
structure TickSinkTrace where
  (verbose_completed : Bool)
  (db_row_written : Bool)
  (mainloop_errors : Bool)
deriving DecidableEq

/-- The storage/transfer section of one firing tick, parameterised by
whether each sink raises when invoked (`verboseRaises` for the console
sink, `dbRaises` for the local-database sink).  Mirrors the statement
order of lines 643-648 under the tick-level `try` of lines 630-672. -/
def tickSinks (verboseRaises dbRaises : Bool) : TickSinkTrace :=
  if VERBOSE && verboseRaises then ⟨false, false, true⟩
  else if SAVE_DATA_LOCALLY && dbRaises then ⟨VERBOSE, false, true⟩
  else ⟨VERBOSE, SAVE_DATA_LOCALLY, false⟩

/-- C1 counterexample: with the console sink always failing (raising) and
the local-database sink always succeeding, dispatching one reading writes
no database row — the succeeding sink's side effect does not occur, and the
succeeding sink is never attempted, because the exception propagates to the
tick boundary before `send_to_local_db` runs. -/
theorem C1_counterexample :
    tickSinks true false = ⟨false, false, true⟩ ∧
      (tickSinks true false).db_row_written = false := by
  constructor <;> rfl

/-- C1 (amended): sink failures are isolated only at the tick boundary, not
per sink: an exception in an earlier sink aborts every later sink of that
cycle.  The database row is written exactly when neither sink raises, the
console sink completes exactly when it does not raise, and the error flag
is set exactly when some sink raises. -/
theorem C1_sink_isolation :
    ∀ verboseRaises dbRaises : Bool,
      (tickSinks verboseRaises dbRaises).db_row_written =
          (!verboseRaises && !dbRaises) ∧
        (tickSinks verboseRaises dbRaises).verbose_completed = !verboseRaises ∧
        (tickSinks verboseRaises dbRaises).mainloop_errors =
          (verboseRaises || dbRaises) := by
  decide

/-! ## SensorReading and `get_sensor_data`
(`src/EnviroPlus/main.py` lines 240-293)

`get_sensor_data` builds the output dict, adding each key only when the
corresponding measurement flag is enabled.  The raw sensor values are
modelled as an explicit record of inputs. -/

/-- The raw values read from the sensor collaborators in one acquisition:
BME280 temperature / pressure / humidity, the CPU temperature, the PMS5003
particulate values, and the three gas-resistance channels. -/
structure RawInputs where
  (temperature : ℚ)
  (pressure : ℚ)
  (humidity : ℚ)
  (cpu_temperature : ℚ)
  (pm25 : ℚ)
  (pm10 : ℚ)
  (oxidising : ℚ)
  (reducing : ℚ)
  (nh3 : ℚ)
deriving DecidableEq

/-- The calibrated snapshot produced once per cycle: the output dict of
`get_sensor_data`, with `none` standing for a key that is absent because
the measurement is disabled.  Fields in insertion order: `temperature`,
`pressure`, `humidity`, `P2` (PM2.5), `P1` (PM10), `cpu_temperature`,
`oxidising`, `reducing`, `nh3`. -/
structure SensorReading where
  (temperature : Option ℚ)
  (pressure : Option ℚ)
  (humidity : Option ℚ)
  (P2 : Option ℚ)
  (P1 : Option ℚ)
  (cpu_temperature : Option ℚ)
  (oxidising : Option ℚ)
  (reducing : Option ℚ)
  (nh3 : Option ℚ)
deriving DecidableEq

/-- `get_sensor_data`: compensate the temperature when
`COMPENSATE_TEMPERATURE`, then populate each enabled field with its
calibrated (rounded) value; gas channels are converted from Ohm to kOhm
before rounding. -/
def get_sensor_data (cfg : Config) (raw : RawInputs) : SensorReading :=
  let temperature : ℚ :=
    if cfg.COMPENSATE_TEMPERATURE then
      compensate_temperature raw.temperature raw.cpu_temperature
        cfg.tempCompensationFactor
    else raw.temperature
  ⟨if cfg.MEASURE_TEMPERATURE then some (calibrate_temperature temperature) else none,
   if cfg.MEASURE_PRESSURE then some (calibrate_pressure raw.pressure) else none,
   if cfg.MEASURE_HUMIDITY then some (calibrate_humidity raw.humidity) else none,
   if cfg.MEASURE_PM25 then some (calibrate_pm25 raw.pm25) else none,
   if cfg.MEASURE_PM10 then some (calibrate_pm10 raw.pm10) else none,
   if cfg.MEASURE_CPU_TEMPERATURE then
     some (pyRound raw.cpu_temperature ROUND_DATA_TO_DP) else none,
   if cfg.MEASURE_GASES then
     some (pyRound (raw.oxidising / 1000) ROUND_DATA_TO_DP) else none,
   if cfg.MEASURE_GASES then
     some (pyRound (raw.reducing / 1000) ROUND_DATA_TO_DP) else none,
   if cfg.MEASURE_GASES then
     some (pyRound (raw.nh3 / 1000) ROUND_DATA_TO_DP) else none⟩

/-- C9: every field present in a produced SensorReading is a fixpoint of
rounding at the configured precision — re-rounding an already produced
field at `ROUND_DATA_TO_DP` is a no-op, for every configuration and every
raw input. -/
theorem C9_rounding_fixpoint :
    ∀ (cfg : Config) (raw : RawInputs) (v : ℚ),
      ((get_sensor_data cfg raw).temperature = some v →
        pyRound v ROUND_DATA_TO_DP = v) ∧
      ((get_sensor_data cfg raw).pressure = some v →
        pyRound v ROUND_DATA_TO_DP = v) ∧
      ((get_sensor_data cfg raw).humidity = some v →
        pyRound v ROUND_DATA_TO_DP = v) ∧
      ((get_sensor_data cfg raw).P2 = some v →
        pyRound v ROUND_DATA_TO_DP = v) ∧
      ((get_sensor_data cfg raw).P1 = some v →
        pyRound v ROUND_DATA_TO_DP = v) ∧
      ((get_sensor_data cfg raw).cpu_temperature = some v →
        pyRound v ROUND_DATA_TO_DP = v) ∧
      ((get_sensor_data cfg raw).oxidising = some v →
        pyRound v ROUND_DATA_TO_DP = v) ∧
      ((get_sensor_data cfg raw).reducing = some v →
        pyRound v ROUND_DATA_TO_DP = v) ∧
      ((get_sensor_data cfg raw).nh3 = some v →
        pyRound v ROUND_DATA_TO_DP = v) := by
  intro cfg raw v
  unfold get_sensor_data
  refine ⟨?_, ?_, ?_, ?_, ?_, ?_, ?_, ?_, ?_⟩ <;>
    · intro h
      simp only [calibrate_temperature, calibrate_pressure, calibrate_humidity,
        calibrate_pm25, calibrate_pm10, compensate_temperature] at h
      split at h
      · cases h
        exact pyRound_idem _ _
      · cases h

/-- C9 witness: with the source configuration and all raw inputs equal to
1, the produced temperature field is exactly 1, and re-rounding it is a
no-op. -/
theorem C9_rounding_fixpoint_witness :
    (get_sensor_data sourceConfig ⟨1, 1, 1, 1, 1, 1, 1, 1, 1⟩).temperature = some 1 ∧
      pyRound 1 ROUND_DATA_TO_DP = 1 := by
  have heq :
      (get_sensor_data sourceConfig ⟨1, 1, 1, 1, 1, 1, 1, 1, 1⟩).temperature = some 1 := by
    unfold get_sensor_data sourceConfig calibrate_temperature compensate_temperature
      pyRound pyRoundInt ROUND_DATA_TO_DP
    norm_num
  exact ⟨heq,
    (C9_rounding_fixpoint sourceConfig ⟨1, 1, 1, 1, 1, 1, 1, 1, 1⟩ 1).1 heq⟩

/-! ## Console verbose sink (`verbose`, `src/EnviroPlus/main.py` lines 479-510)

For each field the source computes `x = data.get(key)` and then
`bool(x) * (" Label: " + str(x) + " unit ")`: in Python `bool(None)` and
`bool(0)`/`bool(0.0)` are both `False`, and `False * s = ""`, so a missing
key and a present zero both contribute the empty string. -/

/-- Stand-in for Python's `str()` on a numeric value. -/
def numStr (q : ℚ) : String := toString q

/-- One `bool(x) * (" Label: " + str(x) + " unit ")` segment of `verbose`:
empty when the key is absent or its value is (numerically) zero. -/
def verboseSegment (label unit : String) (v : Option ℚ) : String :=
  match v with
  | none => ""
  | some x => if x = 0 then "" else " " ++ label ++ ": " ++ numStr x ++ " " ++ unit ++ " "

/-- `verbose(data, measurement_time)`: the line printed to the console, with
the segments concatenated in the source's print order (line 507-510). -/
def verboseLine (data : SensorReading) (measurement_time : String) : String :=
  "\n" ++ measurement_time ++ " | "
    ++ verboseSegment "Tmp" "deg C" data.temperature
    ++ verboseSegment "Prs" "hPa" data.pressure
    ++ verboseSegment "Hum" "%" data.humidity
    ++ verboseSegment "CPU" "deg C" data.cpu_temperature
    ++ verboseSegment "PM2.5" "ug/cm^3" data.P2
    ++ verboseSegment "PM10" "ug/cm^3" data.P1
    ++ verboseSegment "Oxidising" "kOhm" data.oxidising
    ++ verboseSegment "Reducing" "kOhm" data.reducing
    ++ verboseSegment "NH3" "kOhm" data.nh3

/-- C10: the verbose console line cannot distinguish a present field whose
value is zero from an absent (disabled) field: for each of the nine
measurements, replacing `some 0` by `none` (with the other eight fields and
the timestamp arbitrary) yields the identical output line. -/
theorem C10_verbose_zero_absent :
    ∀ (t p h c p2 p1 o r n : Option ℚ) (tm : String),
      verboseLine ⟨some 0, p, h, p2, p1, c, o, r, n⟩ tm =
          verboseLine ⟨none, p, h, p2, p1, c, o, r, n⟩ tm ∧
        verboseLine ⟨t, some 0, h, p2, p1, c, o, r, n⟩ tm =
          verboseLine ⟨t, none, h, p2, p1, c, o, r, n⟩ tm ∧
        verboseLine ⟨t, p, some 0, p2, p1, c, o, r, n⟩ tm =
          verboseLine ⟨t, p, none, p2, p1, c, o, r, n⟩ tm ∧
        verboseLine ⟨t, p, h, some 0, p1, c, o, r, n⟩ tm =
          verboseLine ⟨t, p, h, none, p1, c, o, r, n⟩ tm ∧
        verboseLine ⟨t, p, h, p2, some 0, c, o, r, n⟩ tm =
          verboseLine ⟨t, p, h, p2, none, c, o, r, n⟩ tm ∧
        verboseLine ⟨t, p, h, p2, p1, some 0, o, r, n⟩ tm =
          verboseLine ⟨t, p, h, p2, p1, none, o, r, n⟩ tm ∧
        verboseLine ⟨t, p, h, p2, p1, c, some 0, r, n⟩ tm =
          verboseLine ⟨t, p, h, p2, p1, c, none, r, n⟩ tm ∧
        verboseLine ⟨t, p, h, p2, p1, c, o, some 0, n⟩ tm =
          verboseLine ⟨t, p, h, p2, p1, c, o, none, n⟩ tm ∧
        verboseLine ⟨t, p, h, p2, p1, c, o, r, some 0⟩ tm =
          verboseLine ⟨t, p, h, p2, p1, c, o, r, none⟩ tm := by
  intro t p h c p2 p1 o r n tm
  refine ⟨?_, ?_, ?_, ?_, ?_, ?_, ?_, ?_, ?_⟩ <;>
    simp [verboseLine, verboseSegment]

/-! ## Remote push: `send_to_luftdaten`
(`src/EnviroPlus/main.py` lines 386-474)

The function first returns -1 when `MEASURE_PM25 and MEASURE_PM10` is not
set.  It then builds `pm_data_dict = dict(P1=data["P1"], P2=data["P2"])`
(a `KeyError` when either key is absent) and the climate dict of all keys
not starting with "P".  The PM post is always attempted; the climate post
only when the climate dict is non-empty.  A caught request exception leaves
the corresponding response variable `None`.  The final checks return 0 when
both responses are present and ok, 0 when only the PM response is present
and ok, and -1 otherwise. -/

/-- Outcome of one `requests.post` call as the source observes it: either a
response arrives with `ok` true or false, or a request exception is raised
(connection error, timeout, or other request error — all caught, leaving
the response variable `None`). -/
inductive NetResult
  | resp : Bool → NetResult
  | exc : NetResult
deriving DecidableEq

/-- The response variable left behind by a post attempt: `none` exactly
when the attempt raised a caught request exception. -/
def NetResult.toResponse : NetResult → Option Bool
  | NetResult.resp b => some b
  | NetResult.exc => none

/-- Result of `send_to_luftdaten` when no exception escapes: the list of
`X-PIN` category tags of the submissions attempted, in order, and the
returned code (0 success, -1 failure). -/
structure LuftdatenOutcome where
  (submissions : List String)
  (retcode : ℤ)
deriving DecidableEq

/-- Python's `s.startswith("P")` for the single-character prefix used at
line 400: true exactly when the first character of `s` is `P`. -/
def startswithP (s : String) : Bool :=
  match s.data with
  | [] => false
  | c :: _ => c = 'P'

/-- The climate dict: all items of the reading whose key does not start
with "P" (line 400). -/
def climateData (data : List (String × ℚ)) : List (String × ℚ) :=
  data.filter (fun kv => !(startswithP kv.1))

/-- `send_to_luftdaten(data, serial_num)`, with the network modelled by the
outcome of each of the two possible post attempts.  A `KeyError` escaping
the function is `Except.error`. -/
def send_to_luftdaten (cfg : Config) (data : List (String × ℚ))
    (pmNet climateNet : NetResult) : Except String LuftdatenOutcome :=
  if !(cfg.MEASURE_PM25 && cfg.MEASURE_PM10) then Except.ok ⟨[], -1⟩
  else
    match data.lookup "P1" with
    | none => Except.error "KeyError: P1"
    | some _ =>
      match data.lookup "P2" with
      | none => Except.error "KeyError: P2"
      | some _ =>
        let pm_api_response : Option Bool := pmNet.toResponse
        let climate_posted : Bool := !(climateData data).isEmpty
        let climate_api_response : Option Bool :=
          if climate_posted then climateNet.toResponse else none
        let submissions : List String :=
          if climate_posted then ["1", "11"] else ["1"]
        let retcode : ℤ :=
          match pm_api_response, climate_api_response with
          | some pm_ok, some climate_ok => if pm_ok && climate_ok then 0 else -1
          | some pm_ok, none => if pm_ok then 0 else -1
          | none, _ => -1
        Except.ok ⟨submissions, retcode⟩

/-- C4 counterexample: a reading containing neither particulate nor climate
fields does not issue zero submissions and succeed — with the source
configuration the dict access `data["P1"]` raises a `KeyError` that escapes
the sink. -/
theorem C4_counterexample :
    send_to_luftdaten sourceConfig [] (NetResult.resp true) (NetResult.resp true) =
      Except.error "KeyError: P1" := by
  rfl

/-- C4 (amended): with both particulate fields present, a reading whose
climate part is empty issues exactly one submission (tag "1") and the empty
climate group is skipped without being counted as a failure (a successful
particulate post returns 0); a reading with both groups issues exactly two
submissions (tags "1" then "11"); but a reading lacking the particulate
field `P1` raises a `KeyError` instead of skipping the group. -/
theorem C4_grouping :
    (∀ (data : List (String × ℚ)) (pmNet climateNet : NetResult) (v1 v2 : ℚ),
        data.lookup "P1" = some v1 → data.lookup "P2" = some v2 →
        (climateData data).isEmpty = true →
        send_to_luftdaten sourceConfig data pmNet climateNet =
          Except.ok ⟨["1"], if pmNet = NetResult.resp true then 0 else -1⟩) ∧
      (∀ (data : List (String × ℚ)) (pmNet climateNet : NetResult) (v1 v2 : ℚ),
        data.lookup "P1" = some v1 → data.lookup "P2" = some v2 →
        (climateData data).isEmpty = false →
        ∃ out, send_to_luftdaten sourceConfig data pmNet climateNet = Except.ok out ∧
          out.submissions = ["1", "11"]) ∧
      (∀ (data : List (String × ℚ)) (pmNet climateNet : NetResult),
        data.lookup "P1" = none →
        send_to_luftdaten sourceConfig data pmNet climateNet =
          Except.error "KeyError: P1") := by
  refine ⟨?_, ?_, ?_⟩
  · intro data pmNet climateNet v1 v2 h1 h2 hclim
    simp only [send_to_luftdaten, sourceConfig, h1, h2, hclim]
    cases pmNet with
    | resp b => cases b <;> simp [NetResult.toResponse]
    | exc => simp [NetResult.toResponse]
  · intro data pmNet climateNet v1 v2 h1 h2 hclim
    refine ⟨?_, ?_, ?_⟩
    · exact ⟨["1", "11"],
        match pmNet.toResponse, (if (!(climateData data).isEmpty : Bool) then climateNet.toResponse else none) with
        | some pm_ok, some climate_ok => if pm_ok && climate_ok then 0 else -1
        | some pm_ok, none => if pm_ok then 0 else -1
        | none, _ => -1⟩
    · simp only [send_to_luftdaten, sourceConfig, h1, h2, hclim]
      simp
    · rfl
  · intro data pmNet climateNet h1
    simp [send_to_luftdaten, sourceConfig, h1]

/-- C4 witness: concrete instantiations of the amended grouping — a
particulate-only reading issues exactly the submission tagged "1" and
succeeds when the particulate post succeeds, and a reading missing `P1`
raises. -/
theorem C4_grouping_witness :
    send_to_luftdaten sourceConfig [("P1", 10), ("P2", 5)]
        (NetResult.resp true) (NetResult.resp true) =
      Except.ok ⟨["1"], 0⟩ ∧
    send_to_luftdaten sourceConfig [("temperature", 20)]
        (NetResult.resp true) (NetResult.resp true) =
      Except.error "KeyError: P1" := by
  constructor
  · have h := C4_grouping.1 [("P1", 10), ("P2", 5)]
      (NetResult.resp true) (NetResult.resp true) 10 5 (by rfl) (by rfl) (by rfl)
    simpa using h
  · exact C4_grouping.2.2 [("temperature", 20)]
      (NetResult.resp true) (NetResult.resp true) (by rfl)

/-- C5 counterexample: with both groups present, a particulate post that
succeeds and a climate post that raises a caught request exception (so the
climate submission is issued and does not succeed), the sink still returns
0 — overall success — because the exception leaves the climate response
`None`, which the final check treats like an absent climate submission. -/
theorem C5_counterexample :
    send_to_luftdaten sourceConfig [("P1", 10), ("P2", 5), ("temperature", 20)]
        (NetResult.resp true) NetResult.exc =
      Except.ok ⟨["1", "11"], 0⟩ := by
  rfl

/-- C5 (amended): for a reading with both particulate fields present, the
sink returns 0 exactly when the particulate post's response arrives and is
ok, and the climate post — when one is issued — does not receive a
non-success response.  An issued climate post whose request raises a caught
exception is treated like an absent one (success follows the particulate
outcome); only an issued climate post receiving a bad response forces
overall failure. -/
theorem C5_success_rule :
    ∀ (data : List (String × ℚ)) (pmNet climateNet : NetResult) (v1 v2 : ℚ)
      (out : LuftdatenOutcome),
      data.lookup "P1" = some v1 → data.lookup "P2" = some v2 →
      send_to_luftdaten sourceConfig data pmNet climateNet = Except.ok out →
      (out.retcode = 0 ↔
        pmNet = NetResult.resp true ∧
          ¬((climateData data).isEmpty = false ∧ climateNet = NetResult.resp false)) := by
  intro data pmNet climateNet v1 v2 out h1 h2 hout
  simp only [send_to_luftdaten, sourceConfig, h1, h2] at hout
  simp only [Bool.and_self, Bool.not_true, Bool.false_eq_true, if_false] at hout
  cases hclim : (climateData data).isEmpty <;>
    cases pmNet with
    | resp pb =>
      cases pb <;> cases climateNet with
      | resp cb =>
        cases cb <;>
          · rw [hclim] at hout
            simp [NetResult.toResponse] at hout
            cases hout
            simp
      | exc =>
        rw [hclim] at hout
        simp [NetResult.toResponse] at hout
        cases hout
        simp
    | exc =>
      cases climateNet with
      | resp cb =>
        cases cb <;>
          · rw [hclim] at hout
            simp [NetResult.toResponse] at hout
            cases hout
            simp
      | exc =>
        rw [hclim] at hout
        simp [NetResult.toResponse] at hout
        cases hout
        simp

/-- C5 witness: applying the amended success rule to a reading with both
groups, a successful particulate post and a climate post that received a
bad response: the returned code is not 0. -/
theorem C5_success_rule_witness :
    send_to_luftdaten sourceConfig [("P1", 10), ("P2", 5), ("temperature", 20)]
        (NetResult.resp true) (NetResult.resp false) =
      Except.ok ⟨["1", "11"], -1⟩ ∧
    ¬((⟨["1", "11"], -1⟩ : LuftdatenOutcome).retcode = 0) := by
  have heq :
      send_to_luftdaten sourceConfig [("P1", 10), ("P2", 5), ("temperature", 20)]
          (NetResult.resp true) (NetResult.resp false) =
        Except.ok ⟨["1", "11"], -1⟩ := by rfl
  refine ⟨heq, ?_⟩
  intro hzero
  have h := (C5_success_rule [("P1", 10), ("P2", 5), ("temperature", 20)]
    (NetResult.resp true) (NetResult.resp false) 10 5 ⟨["1", "11"], -1⟩
    (by rfl) (by rfl) heq).mp hzero
  exact h.2 ⟨by rfl, rfl⟩

/-! ## Particulate acquisition and the transient-read retry
(`src/emi_test.py` lines 84-94; `src/EnviroPlus/main.py` lines 260-262)

`emi_test.read_values` wraps the PMS5003 read in
`try ... except (ReadTimeoutError, ChecksumMismatchError): reset; read`,
so a transient failure triggers exactly one reset and one retried read,
whose failure propagates.  `main.get_sensor_data` calls
`pms5003_instance.read()` bare, with no retry. -/

/-- Outcome of one PMS5003 `read()` call: a pair of particulate values, a
transient error (`ReadTimeoutError` or `ChecksumMismatchError`), or any
other exception. -/
inductive PMReadResult
  | ok : ℚ → ℚ → PMReadResult
  | transient : PMReadResult
  | fatal : PMReadResult
deriving DecidableEq

/-- Result of one particulate acquisition: the `(pm2.5, pm10)` pair or the
propagated exception, together with the number of `pms5003.reset()` calls
performed. -/
structure PMAcquisition where
  (outcome : Except String (ℚ × ℚ))
  (resets : ℕ)

/-- The particulate part of `emi_test.read_values` (lines 84-94): on a
transient first failure, reset once and read once more; the second read's
outcome — success or failure of any kind — is final.  A non-transient
first failure propagates without a reset.  `attempts n` is the outcome of
the (n+1)-th `pms5003.read()` call. -/
def read_values_pm (attempts : ℕ → PMReadResult) : PMAcquisition :=
  match attempts 0 with
  | PMReadResult.ok a b => ⟨Except.ok (a, b), 0⟩
  | PMReadResult.transient =>
    match attempts 1 with
    | PMReadResult.ok a b => ⟨Except.ok (a, b), 1⟩
    | PMReadResult.transient =>
      ⟨Except.error "ReadTimeoutError/ChecksumMismatchError", 1⟩
    | PMReadResult.fatal => ⟨Except.error "Exception", 1⟩
  | PMReadResult.fatal => ⟨Except.error "Exception", 0⟩

/-- The particulate part of `main.get_sensor_data` (lines 260-262): a bare
`pms5003_instance.read()` — every failure, transient or not, propagates at
once with no reset and no retry. -/
def get_sensor_data_pm (attempts : ℕ → PMReadResult) : PMAcquisition :=
  match attempts 0 with
  | PMReadResult.ok a b => ⟨Except.ok (a, b), 0⟩
  | PMReadResult.transient =>
    ⟨Except.error "ReadTimeoutError/ChecksumMismatchError", 0⟩
  | PMReadResult.fatal => ⟨Except.error "Exception", 0⟩

/-- C8 counterexample: in `main.get_sensor_data`, a transient first read
failure followed by a read that would succeed still propagates the failure
with zero resets — the main script's acquisition performs no
reset-and-retry at all, contrary to the claim's "for every
particulate-sensor acquisition". -/
theorem C8_counterexample :
    get_sensor_data_pm
        (fun n => if n = 0 then PMReadResult.transient else PMReadResult.ok 5 7) =
      ⟨Except.error "ReadTimeoutError/ChecksumMismatchError", 0⟩ := by
  rfl

/-- C8 (amended): the reset-once-retry-once policy holds for the test
script's acquisition (`emi_test.read_values`) only: there a transient first
failure causes exactly one reset, a successful retry returns the values,
and a second consecutive failure propagates; the main script's acquisition
(`get_sensor_data`) propagates the first failure with no reset and no
retry. -/
theorem C8_pm_retry :
    (∀ (attempts : ℕ → PMReadResult) (a b : ℚ),
        attempts 0 = PMReadResult.ok a b →
        read_values_pm attempts = ⟨Except.ok (a, b), 0⟩) ∧
      (∀ attempts : ℕ → PMReadResult, attempts 0 = PMReadResult.transient →
        (read_values_pm attempts).resets = 1) ∧
      (∀ (attempts : ℕ → PMReadResult) (a b : ℚ),
        attempts 0 = PMReadResult.transient → attempts 1 = PMReadResult.ok a b →
        read_values_pm attempts = ⟨Except.ok (a, b), 1⟩) ∧
      (∀ attempts : ℕ → PMReadResult,
        attempts 0 = PMReadResult.transient → attempts 1 = PMReadResult.transient →
        read_values_pm attempts =
          ⟨Except.error "ReadTimeoutError/ChecksumMismatchError", 1⟩) ∧
      (∀ attempts : ℕ → PMReadResult, attempts 0 = PMReadResult.transient →
        get_sensor_data_pm attempts =
          ⟨Except.error "ReadTimeoutError/ChecksumMismatchError", 0⟩) := by
  refine ⟨?_, ?_, ?_, ?_, ?_⟩
  · intro attempts a b h
    simp [read_values_pm, h]
  · intro attempts h
    unfold read_values_pm
    rw [h]
    cases attempts 1 <;> rfl
  · intro attempts a b h0 h1
    simp [read_values_pm, h0, h1]
  · intro attempts h0 h1
    simp [read_values_pm, h0, h1]
  · intro attempts h
    simp [get_sensor_data_pm, h]

/-- C8 witness: a transient first read followed by a successful read — the
test script's acquisition returns the values after exactly one reset. -/
theorem C8_pm_retry_witness :
    read_values_pm
        (fun n => if n = 0 then PMReadResult.transient else PMReadResult.ok 5 7) =
      ⟨Except.ok (5, 7), 1⟩ :=
  C8_pm_retry.2.2.1
    (fun n => if n = 0 then PMReadResult.transient else PMReadResult.ok 5 7)
    5 7 (by rfl) (by rfl)

end EnviroPlus
